import Mathlib

/-!
# UVFX filter (src/uvfx.c): texture lifecycle, tick and render

A shallow embedding of `src/src/uvfx.c`.  The filter's own functions are
translated line by line.  Everything the file calls in libobs (the image
decoder, the GPU texture calls, `os_stat`, the host's visibility and clock
queries) is not part of the repository; those calls are fields of `Host`, the
state of the outside world during one callback, and are left arbitrary.

Conventions
* `char *file` is `Option String` (`none` is `NULL`).
* `time_t` is `Int`; `uint64_t` is `Nat` reduced modulo `2 ^ 64`.
* `float` is IEEE 754 binary32 (`float` below): NaN, the two infinities, the two
  zeros and the finite values, the latter carried as rationals.  `+`, `/` and
  `>=` are the binary32 operations: the exact result rounded to nearest, ties
  to even, with gradual underflow and overflow to infinity.
* The host handles `source`, `effect` and `param_multiplier` are written once in
  `uvfx_source_create` and never read by the modelled logic; they are omitted.
* `blog` diagnostics and `obs_enter_graphics` / `obs_leave_graphics` carry no
  state and are omitted.
-/

namespace UVFX

/-! ## Types declared in libobs -/

/-- The libobs enumeration `enum gs_color_space`. -/
inductive gs_color_space
  | GS_CS_SRGB
  | GS_CS_SRGB_16F
  | GS_CS_709_EXTENDED
  | GS_CS_709_SCRGB
deriving DecidableEq, Repr

/-- The libobs enumeration `enum gs_blend_type`. -/
inductive gs_blend_type
  | GS_BLEND_ZERO
  | GS_BLEND_ONE
  | GS_BLEND_SRCCOLOR
  | GS_BLEND_INVSRCCOLOR
  | GS_BLEND_SRCALPHA
  | GS_BLEND_INVSRCALPHA
  | GS_BLEND_DSTCOLOR
  | GS_BLEND_INVDSTCOLOR
  | GS_BLEND_DSTALPHA
  | GS_BLEND_INVDSTALPHA
  | GS_BLEND_SRCALPHASAT
deriving DecidableEq, Repr

/-- The libobs enumeration `enum gs_image_alpha_mode`, restricted to the two
values `uvfx_source_preload_image` passes. -/
inductive gs_image_alpha_mode
  | GS_IMAGE_ALPHA_PREMULTIPLY_SRGB
  | GS_IMAGE_ALPHA_PREMULTIPLY
deriving DecidableEq, Repr

/-! ## The C type `float` -/

/-- A value of the C type `float` (IEEE 754 binary32).  `finite value` carries
the rational the bit pattern denotes; `finite 0` is `+0.0f` and `negzero` is
`-0.0f`. -/
inductive float
  | nan
  | inf (negative : Bool)
  | negzero
  | finite (value : ℚ)
deriving DecidableEq

/-- The zero with the given sign bit. -/
def float.zero (negative : Bool) : float :=
  if negative then float.negzero else float.finite 0

/-- The sign bit. -/
def float.signbit : float → Bool
  | float.nan => false
  | float.inf negative => negative
  | float.negzero => true
  | float.finite value => decide (value < 0)

/-- The rational denoted by a finite value or a zero (`0` otherwise). -/
def float.value : float → ℚ
  | float.finite value => value
  | _ => 0

/-- The quotient `a / b` rounded to the nearest natural number, ties to even. -/
def round_half_even (a b : Nat) : Nat :=
  if 2 * (a % b) < b then a / b
  else if b < 2 * (a % b) then a / b + 1
  else if a / b % 2 = 0 then a / b
  else a / b + 1

/-- One step of `floor_log2`: divide by `2 ^ b` when that leaves at least 1. -/
def floor_log2_step (state : Nat × Nat) (b : Nat) : Nat × Nat :=
  if 2 ^ b ≤ state.1 then (state.1 / 2 ^ b, state.2 + b) else state

/-- The position of the leading bit of `n`, for `0 < n < 2 ^ 384`. -/
def floor_log2 (n : Nat) : Nat :=
  ([128, 128, 64, 32, 16, 8, 4, 2, 1].foldl floor_log2_step (n, 0)).2

/-- Rounding of an exact result to binary32: round to nearest, ties to even.
With `|q| = p / d`, everything is scaled by `2 ^ 149` so that the smallest
subnormal is 1: `k` is the binade (at least 23, where the subnormals sit), `m`
the 24-bit significand, and the rounded magnitude is `m * 2 ^ (k - 23)`.  A
magnitude of `2 ^ 128` or more is infinity.  An exact zero rounds to `+0.0f`. -/
def float.round (q : ℚ) : float :=
  if q = 0 then float.finite 0
  else
    let p := q.num.natAbs
    let d := q.den
    if 2 ^ 128 * 2 ^ 149 * d ≤ p * 2 ^ 149 then float.inf (decide (q < 0))
    else
      let k := max 23 (floor_log2 (p * 2 ^ 149 / d))
      let m := round_half_even (p * 2 ^ 149) (d * 2 ^ (k - 23))
      if 2 ^ 128 * 2 ^ 149 ≤ m * 2 ^ (k - 23) then float.inf (decide (q < 0))
      else if m = 0 then float.zero (decide (q < 0))
      else if q < 0 then float.finite (mkRat (-(Int.ofNat (m * 2 ^ (k - 23)))) (2 ^ 149))
      else float.finite (mkRat (Int.ofNat (m * 2 ^ (k - 23))) (2 ^ 149))

/-- The binary32 sum `x + y`. -/
def float.add (x y : float) : float :=
  match x, y with
  | float.nan, _ => float.nan
  | _, float.nan => float.nan
  | float.inf a, float.inf b => if a = b then float.inf a else float.nan
  | float.inf a, _ => float.inf a
  | _, float.inf b => float.inf b
  | float.negzero, float.negzero => float.negzero
  | x, y => float.round (x.value + y.value)

/-- The binary32 quotient `x / y`. -/
def float.div (x y : float) : float :=
  match x, y with
  | float.nan, _ => float.nan
  | _, float.nan => float.nan
  | float.inf _, float.inf _ => float.nan
  | float.inf a, y => float.inf (xor a y.signbit)
  | x, float.inf b => float.zero (xor x.signbit b)
  | x, y =>
    if y.value = 0 then
      if x.value = 0 then float.nan else float.inf (xor x.signbit y.signbit)
    else if x.value = 0 then float.zero (xor x.signbit y.signbit)
    else float.round (x.value / y.value)

/-- The binary32 comparison `x >= y`. -/
def float.ge (x y : float) : Bool :=
  match x, y with
  | float.nan, _ => false
  | _, float.nan => false
  | float.inf false, _ => true
  | _, float.inf true => true
  | float.inf true, _ => false
  | _, float.inf false => false
  | x, y => decide (y.value ≤ x.value)

/-- The fields of `gs_image_file4_t` that `uvfx.c` reads or writes
(`if4.image3.image2.image.*`, `if4.image3.image2.mem_usage`, `if4.space`),
flattened.  `data` stands for everything else the library keeps there
(pixel buffers, frame delays, frame cache). -/
structure gs_image_file4 where
  texture : Option Nat
  loaded : Bool
  is_animated_gif : Bool
  cur_frame : Nat
  cur_loop : Nat
  cur_time : Nat
  cx : Nat
  cy : Nat
  mem_usage : Nat
  space : gs_color_space
  data : Nat
deriving DecidableEq, Repr

/-- The four values `uvfx_source_update` reads from `obs_data_t *settings`. -/
structure Settings where
  file : String
  unload : Bool
  linear_alpha : Bool
  is_slide : Bool
deriving DecidableEq, Repr

/-- The outside world during one callback: the results of every libobs call
made by `uvfx.c`. -/
structure Host where
  /-- Result of `obs_source_showing(filter->source)`. -/
  obs_source_showing : Bool
  /-- Result of `os_stat(filename, &stats)`: `some st_mtime` when it returns 0. -/
  os_stat : Option String → Option Int
  /-- Result of `obs_get_video_frame_time()`. -/
  obs_get_video_frame_time : Nat
  /-- Result of `obs_get_video_sdr_white_level()`. -/
  obs_get_video_sdr_white_level : float
  /-- Effect of `gs_image_file4_init(&if4, file, mode)` on the structure. -/
  gs_image_file4_init : gs_image_file4 → Option String → gs_image_alpha_mode → gs_image_file4
  /-- Effect of `gs_image_file4_init_texture(&if4)` on the structure. -/
  gs_image_file4_init_texture : gs_image_file4 → gs_image_file4
  /-- Effect of `gs_image_file4_free(&if4)` on the structure. -/
  gs_image_file4_free : gs_image_file4 → gs_image_file4
  /-- Effect of `gs_image_file4_update_texture(&if4)` on the structure. -/
  gs_image_file4_update_texture : gs_image_file4 → gs_image_file4
  /-- Result and effect of `gs_image_file4_tick(&if4, elapsed)`. -/
  gs_image_file4_tick : gs_image_file4 → Nat → Bool × gs_image_file4
  /-- Result of `gs_get_color_space()`. -/
  gs_get_color_space : gs_color_space
  /-- Result of `obs_source_get_color_space(target, ...)`. -/
  obs_source_get_color_space : gs_color_space
  /-- Result of `obs_source_get_base_width(target)`. -/
  obs_source_get_base_width : Nat
  /-- Result of `obs_source_get_base_height(target)`. -/
  obs_source_get_base_height : Nat
  /-- Result of `gs_get_format_from_space(space)`, as a format code. -/
  gs_get_format_from_space : gs_color_space → Nat
  /-- Result of `obs_source_process_filter_begin_with_color_space(...)`. -/
  obs_source_process_filter_begin : Bool

/-! ## The filter instance -/

/-- The C structure `struct uvfx_source` (lines 35-51). -/
structure uvfx_source where
  file : Option String
  persistent : Bool
  is_slide : Bool
  linear_alpha : Bool
  file_timestamp : Int
  update_time_elapsed : float
  last_time : Nat
  active : Bool
  restart_gif : Bool
  file_decoded : Bool
  texture_loaded : Bool
  if4 : gs_image_file4
deriving DecidableEq

/-- The all-zero `gs_image_file4_t`. -/
def gs_image_file4.zero : gs_image_file4 :=
  { texture := none, loaded := false, is_animated_gif := false, cur_frame := 0,
    cur_loop := 0, cur_time := 0, cx := 0, cy := 0, mem_usage := 0,
    space := gs_color_space.GS_CS_SRGB, data := 0 }

/-- The instance `bzalloc(sizeof(struct uvfx_source))` returns in
`uvfx_source_create` (line 189): every field zero. -/
def uvfx_source.zero : uvfx_source :=
  { file := none, persistent := false, is_slide := false, linear_alpha := false,
    file_timestamp := 0, update_time_elapsed := float.finite 0, last_time := 0,
    active := false,
    restart_gif := false, file_decoded := false, texture_loaded := false,
    if4 := gs_image_file4.zero }

/-- Lines 53-59: `get_modified_timestamp`. -/
def get_modified_timestamp (host : Host) (filename : Option String) : Int :=
  match host.os_stat filename with
  | none => -1
  | some st_mtime => st_mtime

/-- The third argument of `gs_image_file4_init` on line 75:
`filter->linear_alpha ? GS_IMAGE_ALPHA_PREMULTIPLY_SRGB : GS_IMAGE_ALPHA_PREMULTIPLY`. -/
def alpha_mode (linear_alpha : Bool) : gs_image_alpha_mode :=
  if linear_alpha then gs_image_alpha_mode.GS_IMAGE_ALPHA_PREMULTIPLY_SRGB
  else gs_image_alpha_mode.GS_IMAGE_ALPHA_PREMULTIPLY

/-- Lines 67-77: `uvfx_source_preload_image`. -/
def uvfx_source_preload_image (host : Host) (filter : uvfx_source) : uvfx_source :=
  if filter.file_decoded then filter
  else
    { filter with
      file_timestamp := get_modified_timestamp host filter.file
      if4 := host.gs_image_file4_init filter.if4 filter.file (alpha_mode filter.linear_alpha)
      file_decoded := true }

/-- Lines 79-94: `uvfx_source_load_texture`. -/
def uvfx_source_load_texture (host : Host) (filter : uvfx_source) : uvfx_source :=
  if filter.texture_loaded then filter
  else
    { filter with
      if4 := host.gs_image_file4_init_texture filter.if4
      update_time_elapsed := float.finite 0
      texture_loaded := true }

/-- Lines 96-105: `uvfx_source_unload`. -/
def uvfx_source_unload (host : Host) (filter : uvfx_source) : uvfx_source :=
  { filter with
    file_decoded := false
    texture_loaded := false
    if4 := host.gs_image_file4_free filter.if4 }

/-- The test `filter->file && *filter->file` (line 111). -/
def file_nonempty (file : Option String) : Bool :=
  match file with
  | none => false
  | some path => path != ""

/-- Lines 107-115: `uvfx_source_load`. -/
def uvfx_source_load (host : Host) (filter : uvfx_source) : uvfx_source :=
  let filter := uvfx_source_unload host filter
  if file_nonempty filter.file then
    uvfx_source_load_texture host (uvfx_source_preload_image host filter)
  else filter

/-- Lines 117-140: `uvfx_source_update`. -/
def uvfx_source_update (host : Host) (filter : uvfx_source) (settings : Settings) :
    uvfx_source :=
  let filter := { filter with
    file := some settings.file
    persistent := !settings.unload
    linear_alpha := settings.linear_alpha
    is_slide := settings.is_slide }
  if settings.is_slide then filter
  else if filter.persistent || host.obs_source_showing then uvfx_source_load host filter
  else uvfx_source_unload host filter

/-- Lines 148-154: `uvfx_source_show`. -/
def uvfx_source_show (host : Host) (filter : uvfx_source) : uvfx_source :=
  if !filter.persistent && !filter.is_slide then uvfx_source_load host filter else filter

/-- Lines 156-162: `uvfx_source_hide`. -/
def uvfx_source_hide (host : Host) (filter : uvfx_source) : uvfx_source :=
  if !filter.persistent && !filter.is_slide then uvfx_source_unload host filter else filter

/-- Lines 164-179: `restart_gif`. -/
def restart_gif (host : Host) (filter : uvfx_source) : uvfx_source :=
  if filter.if4.is_animated_gif then
    { filter with
      if4 := host.gs_image_file4_update_texture
        { filter.if4 with cur_frame := 0, cur_loop := 0, cur_time := 0 }
      restart_gif := false }
  else filter

/-- Lines 181-185: `uvfx_source_activate`. -/
def uvfx_source_activate (filter : uvfx_source) : uvfx_source :=
  { filter with restart_gif := true }

/-- Lines 242-287: `get_tech_name_and_multiplier`.  The first component is the
returned technique name, the second the value stored through `multiplier`;
`white` is the result of `obs_get_video_sdr_white_level()`.  The divisions are
binary32 divisions. -/
def get_tech_name_and_multiplier (white : float) (current_space source_space : gs_color_space) :
    String × float :=
  match source_space with
  | gs_color_space.GS_CS_SRGB | gs_color_space.GS_CS_SRGB_16F =>
    if current_space = gs_color_space.GS_CS_709_SCRGB then
      ("DrawMultiply", float.div white (float.finite 80))
    else ("Draw", float.finite 1)
  | gs_color_space.GS_CS_709_EXTENDED =>
    match current_space with
    | gs_color_space.GS_CS_SRGB | gs_color_space.GS_CS_SRGB_16F =>
      ("DrawTonemap", float.finite 1)
    | gs_color_space.GS_CS_709_SCRGB => ("DrawMultiply", float.div white (float.finite 80))
    | gs_color_space.GS_CS_709_EXTENDED => ("Draw", float.finite 1)
  | gs_color_space.GS_CS_709_SCRGB =>
    match current_space with
    | gs_color_space.GS_CS_SRGB | gs_color_space.GS_CS_SRGB_16F =>
      ("DrawMultiplyTonemap", float.div (float.finite 80) white)
    | gs_color_space.GS_CS_709_EXTENDED =>
      ("DrawMultiply", float.div (float.finite 80) white)
    | gs_color_space.GS_CS_709_SCRGB => ("Draw", float.finite 1)

/-- The state-changing host and graphics calls `uvfx_source_render` issues. -/
inductive GsCall
  | obs_source_process_filter_begin_with_color_space (format : Nat) (space : gs_color_space)
  | gs_effect_set_float (multiplier : float)
  | gs_effect_set_texture (param : String) (texture : Nat)
  | gs_blend_state_push
  | gs_blend_function (src dest : gs_blend_type)
  | obs_source_process_filter_tech_end (base_cx base_cy : Nat) (technique : String)
  | gs_blend_state_pop
deriving DecidableEq

/-- Lines 289-330: `uvfx_source_render`.  The function does not write to the
instance; its result is the sequence of calls it issues, in order.  A failed
`obs_source_process_filter_begin_with_color_space` is still a call. -/
def uvfx_source_render (host : Host) (filter : uvfx_source) : List GsCall :=
  if !filter.texture_loaded then []
  else
    match filter.if4.texture with
    | none => []
    | some uv_texture =>
      let base_cx := host.obs_source_get_base_width
      let base_cy := host.obs_source_get_base_height
      let source_space := host.obs_source_get_color_space
      let tm := get_tech_name_and_multiplier host.obs_get_video_sdr_white_level
        host.gs_get_color_space source_space
      let format := host.gs_get_format_from_space source_space
      GsCall.obs_source_process_filter_begin_with_color_space format source_space ::
        (if host.obs_source_process_filter_begin then
          [GsCall.gs_effect_set_float tm.2,
           GsCall.gs_effect_set_texture "uv_texture" uv_texture,
           GsCall.gs_blend_state_push,
           GsCall.gs_blend_function gs_blend_type.GS_BLEND_ONE
             gs_blend_type.GS_BLEND_INVSRCALPHA,
           GsCall.obs_source_process_filter_tech_end base_cx base_cy tm.1,
           GsCall.gs_blend_state_pop]
        else [])

/-- Lines 344-355 of `uvfx_source_tick`: the poll accumulator and the
once-per-second modification-time check.  The sum of line 344 and the
comparison with `1.0f` of line 347 are binary32 operations. -/
def tick_poll (host : Host) (seconds : float) (filter : uvfx_source) : uvfx_source :=
  let filter :=
    { filter with update_time_elapsed := float.add filter.update_time_elapsed seconds }
  if host.obs_source_showing then
    if float.ge filter.update_time_elapsed (float.finite 1) then
      let t := get_modified_timestamp host filter.file
      let filter := { filter with update_time_elapsed := float.finite 0 }
      if filter.file_timestamp ≠ t then uvfx_source_load host filter else filter
    else filter
  else filter

/-- Lines 376-387 of `uvfx_source_tick`: the animation advance and the update
of `last_time`.  `frame_time - last_time` is a `uint64_t` subtraction. -/
def tick_animate (host : Host) (frame_time : Nat) (filter : uvfx_source) : uvfx_source :=
  let filter :=
    if filter.last_time ≠ 0 && filter.if4.is_animated_gif then
      let elapsed := (frame_time + 2 ^ 64 - filter.last_time) % 2 ^ 64
      let r := host.gs_image_file4_tick filter.if4 elapsed
      if r.1 then { filter with if4 := host.gs_image_file4_update_texture r.2 }
      else { filter with if4 := r.2 }
    else filter
  { filter with last_time := frame_time }

/-- Lines 358-362 of `uvfx_source_tick`: the inactive-to-active transition. -/
def tick_enter (frame_time : Nat) (filter : uvfx_source) : uvfx_source :=
  if !filter.active then
    if filter.if4.is_animated_gif then { filter with last_time := frame_time, active := true }
    else { filter with active := true }
  else filter

/-- Lines 357-366 of `uvfx_source_tick`, the showing branch: the
inactive-to-active transition, then the pending restart. -/
def tick_showing (host : Host) (frame_time : Nat) (filter : uvfx_source) : uvfx_source :=
  let filter := tick_enter frame_time filter
  if filter.restart_gif then restart_gif host filter else filter

/-- Lines 367-374 of `uvfx_source_tick`, the hidden branch: the
active-to-inactive transition, after which the function returns. -/
def tick_hidden (host : Host) (filter : uvfx_source) : uvfx_source :=
  if filter.active then { restart_gif host filter with active := false } else filter

/-- Lines 342-388 of `uvfx_source_tick`: everything after the lazy upload. -/
def tick_loaded (host : Host) (seconds : float) (filter : uvfx_source) : uvfx_source :=
  let frame_time := host.obs_get_video_frame_time % 2 ^ 64
  let filter := tick_poll host seconds filter
  if host.obs_source_showing then
    tick_animate host frame_time (tick_showing host frame_time filter)
  else tick_hidden host filter

/-- Lines 332-388: `uvfx_source_tick`. -/
def uvfx_source_tick (host : Host) (seconds : float) (filter : uvfx_source) : uvfx_source :=
  if !filter.texture_loaded then
    if filter.file_decoded then
      tick_loaded host seconds (uvfx_source_load_texture host filter)
    else filter
  else tick_loaded host seconds filter

/-! ## Reachable states -/

/-- The host callbacks that act on an existing instance. -/
inductive Op
  | update (settings : Settings)
  | show
  | hide
  | activate
  | tick (seconds : float)
  | render

/-- One callback, run to completion, in the world `host`. -/
def Op.run (host : Host) (filter : uvfx_source) : Op → uvfx_source
  | Op.update settings => uvfx_source_update host filter settings
  | Op.show => uvfx_source_show host filter
  | Op.hide => uvfx_source_hide host filter
  | Op.activate => uvfx_source_activate filter
  | Op.tick seconds => uvfx_source_tick host seconds filter
  | Op.render => filter

/-- Whether the callback is `video_render`. -/
def Op.isRender : Op → Bool
  | Op.render => true
  | _ => false

/-- Whether the callback is an update with `is_slide = true` and an empty file
string. -/
def Op.isSlideUpdateToEmptyPath : Op → Bool
  | Op.update settings => settings.is_slide && settings.file == ""
  | _ => false

/-- States reachable from a freshly created instance (lines 189 and 215 of
`uvfx_source_create`: the zeroed structure followed by the initial update) by
callbacks satisfying `allowed`; the world may differ from one callback to the
next. -/
inductive ReachableBy (allowed : Op → Prop) : uvfx_source → Prop
  | create (host : Host) (settings : Settings) :
      ReachableBy allowed (uvfx_source_update host uvfx_source.zero settings)
  | step (host : Host) (op : Op) (filter : uvfx_source) :
      ReachableBy allowed filter → allowed op → ReachableBy allowed (op.run host filter)

/-- As `ReachableBy`, with a condition that may also depend on the instance
the callback is applied to. -/
inductive ReachableWhen (allowed : uvfx_source → Op → Prop) : uvfx_source → Prop
  | create (host : Host) (settings : Settings) :
      ReachableWhen allowed (uvfx_source_update host uvfx_source.zero settings)
  | step (host : Host) (op : Op) (filter : uvfx_source) :
      ReachableWhen allowed filter → allowed filter op →
        ReachableWhen allowed (op.run host filter)

/-! ## Sample worlds -/

/-- A decoded 64x64 still image. -/
def sampleStill : gs_image_file4 :=
  { gs_image_file4.zero with loaded := true, cx := 64, cy := 64, mem_usage := 16384, data := 1 }

/-- A decoded 32x32 animated GIF. -/
def sampleGif : gs_image_file4 :=
  { gs_image_file4.zero with
    loaded := true, is_animated_gif := true, cx := 32, cy := 32, mem_usage := 8192, data := 2 }

/-- A world in which the source is showing, `logo.png` is a still image,
`spin.gif` an animated GIF and no other file exists.  The library calls behave
as libobs documents them: a failed decode leaves the zeroed structure, the
texture is created only for a loaded image, freeing zeroes the structure,
refreshing the texture leaves the structure alone, and the animation tick
accumulates time. -/
def sampleHost : Host :=
  { obs_source_showing := true
    os_stat := fun file =>
      if file = some "logo.png" then some 1700000000
      else if file = some "spin.gif" then some 1700000500
      else none
    obs_get_video_frame_time := 5000000000
    obs_get_video_sdr_white_level := float.finite 300
    gs_image_file4_init := fun _ file _ =>
      if file = some "logo.png" then sampleStill
      else if file = some "spin.gif" then sampleGif
      else gs_image_file4.zero
    gs_image_file4_init_texture := fun image =>
      if image.loaded then { image with texture := some 7 } else image
    gs_image_file4_free := fun _ => gs_image_file4.zero
    gs_image_file4_update_texture := fun image => image
    gs_image_file4_tick := fun image elapsed =>
      (false, { image with cur_time := image.cur_time + elapsed })
    gs_get_color_space := gs_color_space.GS_CS_SRGB
    obs_source_get_color_space := gs_color_space.GS_CS_SRGB
    obs_source_get_base_width := 1920
    obs_source_get_base_height := 1080
    gs_get_format_from_space := fun _ => 0
    obs_source_process_filter_begin := true }

/-- The same world with the source hidden. -/
def hiddenHost : Host := { sampleHost with obs_source_showing := false }

/-- A loaded still image in the sample world. -/
def sampleLoaded : uvfx_source :=
  uvfx_source_update sampleHost uvfx_source.zero
    { file := "logo.png", unload := false, linear_alpha := false, is_slide := false }

/-- The instance of the sample world after a slide update has replaced the
path of the loaded still image by the empty string. -/
def sampleSlideCleared : uvfx_source :=
  uvfx_source_update sampleHost sampleLoaded
    { file := "", unload := false, linear_alpha := false, is_slide := true }

/-- A world in which `logo.png` has just been rewritten. -/
def touchedHost : Host := { sampleHost with os_stat := fun _ => some 1700000777 }

/-- A loaded animated GIF in the sample world. -/
def sampleGifLoaded : uvfx_source :=
  uvfx_source_update sampleHost uvfx_source.zero
    { file := "spin.gif", unload := false, linear_alpha := false, is_slide := false }

/-- The loaded animated GIF in mid-playback: frame 5 of loop 2. -/
def sampleGifPlaying : uvfx_source :=
  { sampleGifLoaded with
    active := true
    last_time := 4000000000
    if4 := { sampleGifLoaded.if4 with cur_frame := 5, cur_loop := 2, cur_time := 123456 } }

/-- A world in which `spin.gif` has been overwritten by a still image. -/
def replacedHost : Host :=
  { sampleHost with
    os_stat := fun _ => some 1700000999
    gs_image_file4_init := fun _ _ _ => sampleStill }

/-! ## Predicates used in the proofs -/

/-- The part of the instance that load and unload own (path, the two flags,
the stored timestamp and the poll accumulator), and the slide flag. -/
def SameLoadState (a b : uvfx_source) : Prop :=
  a.file = b.file ∧ a.file_decoded = b.file_decoded ∧ a.texture_loaded = b.texture_loaded ∧
  a.file_timestamp = b.file_timestamp ∧ a.update_time_elapsed = b.update_time_elapsed ∧
  a.is_slide = b.is_slide

/-- Invariant of C3: a loaded texture implies a decoded file. -/
def TextureImpliesDecoded (filter : uvfx_source) : Prop :=
  filter.texture_loaded = true → filter.file_decoded = true

/-- Invariant of C4: a `NULL` or empty path implies that both flags are false. -/
def EmptyPathUnloaded (filter : uvfx_source) : Prop :=
  file_nonempty filter.file = false →
    filter.file_decoded = false ∧ filter.texture_loaded = false

/-! ## Facts about binary32 rounding -/

/-- One step of `floor_log2` keeps the quotient `n / 2 ^ acc`, keeps it positive
and halves the number of bits it may still have. -/
theorem floor_log2_step_spec (n r acc b c : Nat) (hr : r = n / 2 ^ acc) (h1 : 1 ≤ r)
    (hb : r < 2 ^ (b + c)) (hbc : b ≤ c) :
    (floor_log2_step (r, acc) b).1 = n / 2 ^ (floor_log2_step (r, acc) b).2 ∧
    1 ≤ (floor_log2_step (r, acc) b).1 ∧ (floor_log2_step (r, acc) b).1 < 2 ^ c := by
  unfold floor_log2_step
  by_cases h : 2 ^ b ≤ r
  · simp only [h, if_true]
    refine ⟨?_, ?_, ?_⟩
    · rw [hr, Nat.div_div_eq_div_mul, pow_add]
    · exact (Nat.one_le_div_iff (by positivity)).2 h
    · rw [Nat.div_lt_iff_lt_mul (by positivity), ← pow_add, Nat.add_comm]
      exact hb
  · simp only [h, if_false]
    refine ⟨hr, h1, ?_⟩
    exact lt_of_lt_of_le (not_le.1 h) (Nat.pow_le_pow_right (by norm_num) hbc)

/-- For `0 < n < 2 ^ 384`, `floor_log2 n` is the position of the leading bit. -/
theorem floor_log2_spec (n : Nat) (h0 : 1 ≤ n) (hn : n < 2 ^ (128 + 256)) :
    2 ^ floor_log2 n ≤ n ∧ n < 2 ^ (floor_log2 n + 1) := by
  have a0 : n = n / 2 ^ 0 := by simp
  unfold floor_log2
  simp only [List.foldl]
  obtain ⟨a1, b1, c1⟩ := floor_log2_step_spec n n 0 128 256 a0 h0 hn (by norm_num)
  generalize floor_log2_step (n, 0) 128 = s1 at a1 b1 c1 ⊢
  obtain ⟨r1, k1⟩ := s1
  simp only at a1 b1 c1 ⊢
  obtain ⟨a2, b2, c2⟩ := floor_log2_step_spec n r1 k1 128 128 a1 b1 c1 (by norm_num)
  generalize floor_log2_step (r1, k1) 128 = s2 at a2 b2 c2 ⊢
  obtain ⟨r2, k2⟩ := s2
  simp only at a2 b2 c2 ⊢
  obtain ⟨a3, b3, c3⟩ := floor_log2_step_spec n r2 k2 64 64 a2 b2 c2 (by norm_num)
  generalize floor_log2_step (r2, k2) 64 = s3 at a3 b3 c3 ⊢
  obtain ⟨r3, k3⟩ := s3
  simp only at a3 b3 c3 ⊢
  obtain ⟨a4, b4, c4⟩ := floor_log2_step_spec n r3 k3 32 32 a3 b3 c3 (by norm_num)
  generalize floor_log2_step (r3, k3) 32 = s4 at a4 b4 c4 ⊢
  obtain ⟨r4, k4⟩ := s4
  simp only at a4 b4 c4 ⊢
  obtain ⟨a5, b5, c5⟩ := floor_log2_step_spec n r4 k4 16 16 a4 b4 c4 (by norm_num)
  generalize floor_log2_step (r4, k4) 16 = s5 at a5 b5 c5 ⊢
  obtain ⟨r5, k5⟩ := s5
  simp only at a5 b5 c5 ⊢
  obtain ⟨a6, b6, c6⟩ := floor_log2_step_spec n r5 k5 8 8 a5 b5 c5 (by norm_num)
  generalize floor_log2_step (r5, k5) 8 = s6 at a6 b6 c6 ⊢
  obtain ⟨r6, k6⟩ := s6
  simp only at a6 b6 c6 ⊢
  obtain ⟨a7, b7, c7⟩ := floor_log2_step_spec n r6 k6 4 4 a6 b6 c6 (by norm_num)
  generalize floor_log2_step (r6, k6) 4 = s7 at a7 b7 c7 ⊢
  obtain ⟨r7, k7⟩ := s7
  simp only at a7 b7 c7 ⊢
  obtain ⟨a8, b8, c8⟩ := floor_log2_step_spec n r7 k7 2 2 a7 b7 c7 (by norm_num)
  generalize floor_log2_step (r7, k7) 2 = s8 at a8 b8 c8 ⊢
  obtain ⟨r8, k8⟩ := s8
  simp only at a8 b8 c8 ⊢
  obtain ⟨a9, b9, c9⟩ := floor_log2_step_spec n r8 k8 1 1 a8 b8 c8 (by norm_num)
  generalize floor_log2_step (r8, k8) 1 = s9 at a9 b9 c9 ⊢
  obtain ⟨r9, k9⟩ := s9
  simp only at a9 b9 c9 ⊢
  have one : n / 2 ^ k9 = 1 := by omega
  have pos : 0 < 2 ^ k9 := by positivity
  have split := Nat.div_add_mod n (2 ^ k9)
  have small := Nat.mod_lt n pos
  rw [one] at split
  rw [pow_succ]
  omega

theorem round_half_even_ge (a b : Nat) : a / b ≤ round_half_even a b := by
  unfold round_half_even
  split
  · exact le_rfl
  · split
    · exact Nat.le_succ _
    · split
      · exact le_rfl
      · exact Nat.le_succ _

/-- Rounding never takes a value of at least 1 below 1. -/
theorem float_round_ge_one (q : ℚ) (h : 1 ≤ q) :
    float.ge (float.round q) (float.finite 1) = true := by
  have hpos : 0 < q := lt_of_lt_of_le one_pos h
  have hq0 : q ≠ 0 := ne_of_gt hpos
  have hneg : ¬ q < 0 := not_lt.2 hpos.le
  have hnum : 0 < q.num := Rat.num_pos.2 hpos
  have hden : 0 < q.den := q.den_pos
  have hpd : q.den ≤ q.num.natAbs := by
    have h1 : (1 : ℚ) ≤ (q.num : ℚ) / (q.den : ℚ) := by rw [Rat.num_div_den]; exact h
    have h2 : (q.den : ℚ) ≤ (q.num : ℚ) :=
      (one_le_div (by exact_mod_cast hden)).1 h1
    have h3 : (q.den : ℤ) ≤ q.num := by exact_mod_cast h2
    have h4 : (q.num.natAbs : ℤ) = q.num := Int.natAbs_of_nonneg hnum.le
    omega
  unfold float.round
  simp only [hq0, if_false, hneg, decide_False]
  split
  · rfl
  · rename_i hover
    have hn_lo : 2 ^ 149 ≤ q.num.natAbs * 2 ^ 149 / q.den := by
      rw [Nat.le_div_iff_mul_le hden]
      calc 2 ^ 149 * q.den = q.den * 2 ^ 149 := Nat.mul_comm _ _
        _ ≤ q.num.natAbs * 2 ^ 149 := Nat.mul_le_mul_right _ hpd
    have hn_hi : q.num.natAbs * 2 ^ 149 / q.den < 2 ^ (128 + 256) := by
      rw [Nat.div_lt_iff_lt_mul hden]
      have := not_le.1 hover
      calc q.num.natAbs * 2 ^ 149 < 2 ^ 128 * 2 ^ 149 * q.den := this
        _ ≤ 2 ^ (128 + 256) * q.den := Nat.mul_le_mul_right _ (by norm_num)
    obtain ⟨lo, hi⟩ := floor_log2_spec _ (le_trans (Nat.one_le_two_pow) hn_lo) hn_hi
    generalize floor_log2 (q.num.natAbs * 2 ^ 149 / q.den) = fl at lo hi ⊢
    have hfl : 149 ≤ fl := by
      have : 2 ^ 149 < 2 ^ (fl + 1) := lt_of_le_of_lt hn_lo hi
      have := (Nat.pow_lt_pow_iff_right (by norm_num : 1 < 2)).1 this
      omega
    have hk : max 23 fl = fl := max_eq_right (by omega)
    rw [hk]
    have hm : 2 ^ 23 ≤ round_half_even (q.num.natAbs * 2 ^ 149) (q.den * 2 ^ (fl - 23)) := by
      refine le_trans ?_ (round_half_even_ge _ _)
      rw [Nat.le_div_iff_mul_le (by positivity)]
      have e : 2 ^ 23 * (q.den * 2 ^ (fl - 23)) = 2 ^ fl * q.den := by
        have : 2 ^ fl = 2 ^ 23 * 2 ^ (fl - 23) := by
          rw [← pow_add]; congr 1; omega
        rw [this]; ring
      rw [e]
      exact (Nat.le_div_iff_mul_le hden).1 lo
    generalize round_half_even (q.num.natAbs * 2 ^ 149) (q.den * 2 ^ (fl - 23)) = m at hm ⊢
    have hbig : 2 ^ 149 ≤ m * 2 ^ (fl - 23) := by
      calc 2 ^ 149 ≤ 2 ^ fl := Nat.pow_le_pow_right (by norm_num) hfl
        _ = 2 ^ 23 * 2 ^ (fl - 23) := by rw [← pow_add]; congr 1; omega
        _ ≤ m * 2 ^ (fl - 23) := Nat.mul_le_mul_right _ hm
    split
    · rfl
    · have hm0 : m ≠ 0 := by
        intro h0
        rw [h0] at hm
        exact absurd hm (by norm_num)
      simp only [hm0, if_false, float.ge, float.value]
      rw [decide_eq_true_iff, Rat.mkRat_eq_div]
      rw [one_le_div (by positivity)]
      have : ((2 ^ 149 : ℕ) : ℚ) ≤ ((m * 2 ^ (fl - 23) : ℕ) : ℚ) := by exact_mod_cast hbig
      simpa using this

/-- When the accumulator and the delta are finite and their exact sum is at
least 1, the binary32 sum passes the test `>= 1.0f` of line 347. -/
theorem float_sum_reaches_one (a s : ℚ) (h : 1 ≤ a + s) :
    float.ge (float.add (float.finite a) (float.finite s)) (float.finite 1) = true := by
  have e : float.add (float.finite a) (float.finite s) = float.round (a + s) := by
    simp [float.add, float.value]
  rw [e]
  exact float_round_ge_one _ h

/-! ## Field-level facts about load and unload -/

theorem file_nonempty_some (path : String) : file_nonempty (some path) = true ↔ path ≠ "" := by
  simp [file_nonempty]

theorem unload_flags (host : Host) (filter : uvfx_source) :
    (uvfx_source_unload host filter).file_decoded = false ∧
    (uvfx_source_unload host filter).texture_loaded = false ∧
    (uvfx_source_unload host filter).file = filter.file :=
  ⟨rfl, rfl, rfl⟩

theorem load_flags (host : Host) (filter : uvfx_source) :
    (uvfx_source_load host filter).file_decoded = file_nonempty filter.file ∧
    (uvfx_source_load host filter).texture_loaded = file_nonempty filter.file ∧
    (uvfx_source_load host filter).file = filter.file := by
  unfold uvfx_source_load
  cases h : file_nonempty filter.file <;>
    simp [uvfx_source_unload, uvfx_source_preload_image, uvfx_source_load_texture, h]

/-- What `uvfx_source_load` leaves behind for a non-empty path: the previous
image is freed, the file is decoded afresh and its texture is created, the
timestamp is re-read and the poll accumulator is zero. -/
theorem load_nonempty (host : Host) (filter : uvfx_source) (h : file_nonempty filter.file = true) :
    uvfx_source_load host filter =
      { filter with
        file_decoded := true
        texture_loaded := true
        update_time_elapsed := float.finite 0
        file_timestamp := get_modified_timestamp host filter.file
        if4 := host.gs_image_file4_init_texture
          (host.gs_image_file4_init (host.gs_image_file4_free filter.if4) filter.file
            (alpha_mode filter.linear_alpha)) } := by
  unfold uvfx_source_load
  simp [uvfx_source_unload, uvfx_source_preload_image, uvfx_source_load_texture, h]

theorem SameLoadState.trans {a b c : uvfx_source} (h1 : SameLoadState a b)
    (h2 : SameLoadState b c) : SameLoadState a c := by
  obtain ⟨a1, a2, a3, a4, a5, a6⟩ := h1
  obtain ⟨b1, b2, b3, b4, b5, b6⟩ := h2
  exact ⟨a1.trans b1, a2.trans b2, a3.trans b3, a4.trans b4, a5.trans b5, a6.trans b6⟩

theorem restart_gif_same (host : Host) (filter : uvfx_source) :
    SameLoadState (restart_gif host filter) filter := by
  unfold restart_gif
  split <;> exact ⟨rfl, rfl, rfl, rfl, rfl, rfl⟩

theorem tick_showing_same (host : Host) (frame_time : Nat) (filter : uvfx_source) :
    SameLoadState (tick_showing host frame_time filter) filter := by
  have entered : SameLoadState (tick_enter frame_time filter) filter := by
    unfold tick_enter
    split
    · split <;> exact ⟨rfl, rfl, rfl, rfl, rfl, rfl⟩
    · exact ⟨rfl, rfl, rfl, rfl, rfl, rfl⟩
  unfold tick_showing
  simp only []
  split
  · exact (restart_gif_same host _).trans entered
  · exact entered

theorem tick_enter_if4 (frame_time : Nat) (filter : uvfx_source) :
    (tick_enter frame_time filter).if4 = filter.if4 ∧
    (tick_enter frame_time filter).restart_gif = filter.restart_gif := by
  unfold tick_enter
  split
  · split <;> exact ⟨rfl, rfl⟩
  · exact ⟨rfl, rfl⟩

theorem restart_gif_animated (host : Host) (filter : uvfx_source)
    (h : filter.if4.is_animated_gif = true) :
    (restart_gif host filter).if4 = host.gs_image_file4_update_texture
      { filter.if4 with cur_frame := 0, cur_loop := 0, cur_time := 0 } ∧
    (restart_gif host filter).restart_gif = false := by
  unfold restart_gif
  rw [if_pos h]
  exact ⟨rfl, rfl⟩

theorem tick_hidden_same (host : Host) (filter : uvfx_source) :
    SameLoadState (tick_hidden host filter) filter := by
  unfold tick_hidden
  split
  · exact restart_gif_same host filter
  · exact ⟨rfl, rfl, rfl, rfl, rfl, rfl⟩

theorem tick_animate_same (host : Host) (frame_time : Nat) (filter : uvfx_source) :
    SameLoadState (tick_animate host frame_time filter) filter := by
  unfold tick_animate
  simp only []
  split
  · split <;> exact ⟨rfl, rfl, rfl, rfl, rfl, rfl⟩
  · exact ⟨rfl, rfl, rfl, rfl, rfl, rfl⟩

theorem tick_animate_restart_gif (host : Host) (frame_time : Nat) (filter : uvfx_source) :
    (tick_animate host frame_time filter).restart_gif = filter.restart_gif := by
  unfold tick_animate
  simp only []
  split
  · split <;> rfl
  · rfl

/-- Everything after the poll leaves the load state alone. -/
theorem tick_loaded_same (host : Host) (seconds : float) (filter : uvfx_source) :
    SameLoadState (tick_loaded host seconds filter) (tick_poll host seconds filter) := by
  unfold tick_loaded
  simp only []
  split
  · exact (tick_animate_same host _ _).trans (tick_showing_same host _ _)
  · exact tick_hidden_same host _

/-- The poll either only moves the accumulator or runs `uvfx_source_load`. -/
theorem tick_poll_cases (host : Host) (seconds : float) (filter : uvfx_source) :
    (∃ acc, tick_poll host seconds filter = { filter with update_time_elapsed := acc }) ∨
    tick_poll host seconds filter =
      uvfx_source_load host { filter with update_time_elapsed := float.finite 0 } := by
  unfold tick_poll
  simp only []
  split
  · split
    · split
      · exact Or.inr rfl
      · exact Or.inl ⟨_, rfl⟩
    · exact Or.inl ⟨_, rfl⟩
  · exact Or.inl ⟨_, rfl⟩

theorem load_restart_gif (host : Host) (filter : uvfx_source) :
    (uvfx_source_load host filter).restart_gif = filter.restart_gif := by
  unfold uvfx_source_load
  cases h : file_nonempty filter.file <;>
    simp [uvfx_source_unload, uvfx_source_preload_image, uvfx_source_load_texture, h]

theorem tick_poll_restart_gif (host : Host) (seconds : float) (filter : uvfx_source) :
    (tick_poll host seconds filter).restart_gif = filter.restart_gif := by
  rcases tick_poll_cases host seconds filter with ⟨acc, h⟩ | h
  · rw [h]
  · rw [h, load_restart_gif]

/-! ## The two flag invariants -/

theorem load_texture_implies_decoded (host : Host) (filter : uvfx_source) :
    TextureImpliesDecoded (uvfx_source_load host filter) := by
  intro h
  rw [(load_flags host filter).1]
  rw [(load_flags host filter).2.1] at h
  exact h

theorem unload_texture_implies_decoded (host : Host) (filter : uvfx_source) :
    TextureImpliesDecoded (uvfx_source_unload host filter) := by
  intro h
  rw [(unload_flags host filter).2.1] at h
  exact absurd h (by decide)

theorem load_empty_path_unloaded (host : Host) (filter : uvfx_source) :
    EmptyPathUnloaded (uvfx_source_load host filter) := by
  intro h
  obtain ⟨h1, h2, h3⟩ := load_flags host filter
  rw [h3] at h
  rw [h1, h2]
  exact ⟨h, h⟩

theorem unload_empty_path_unloaded (host : Host) (filter : uvfx_source) :
    EmptyPathUnloaded (uvfx_source_unload host filter) :=
  fun _ => ⟨rfl, rfl⟩

theorem tick_poll_texture_implies_decoded (host : Host) (seconds : float) (filter : uvfx_source)
    (h : TextureImpliesDecoded filter) :
    TextureImpliesDecoded (tick_poll host seconds filter) := by
  rcases tick_poll_cases host seconds filter with ⟨acc, hp⟩ | hp
  · rw [hp]; exact h
  · rw [hp]; exact load_texture_implies_decoded host _

theorem tick_poll_empty_path_unloaded (host : Host) (seconds : float) (filter : uvfx_source)
    (h : EmptyPathUnloaded filter) :
    EmptyPathUnloaded (tick_poll host seconds filter) := by
  rcases tick_poll_cases host seconds filter with ⟨acc, hp⟩ | hp
  · rw [hp]; exact h
  · rw [hp]; exact load_empty_path_unloaded host _

theorem tick_loaded_texture_implies_decoded (host : Host) (seconds : float) (filter : uvfx_source)
    (h : TextureImpliesDecoded filter) :
    TextureImpliesDecoded (tick_loaded host seconds filter) := by
  obtain ⟨_, h2, h3, _, _, _⟩ := tick_loaded_same host seconds filter
  intro ht
  rw [h2]
  rw [h3] at ht
  exact tick_poll_texture_implies_decoded host seconds filter h ht

theorem tick_loaded_empty_path_unloaded (host : Host) (seconds : float) (filter : uvfx_source)
    (h : EmptyPathUnloaded filter) :
    EmptyPathUnloaded (tick_loaded host seconds filter) := by
  obtain ⟨h1, h2, h3, _, _, _⟩ := tick_loaded_same host seconds filter
  intro he
  rw [h2, h3]
  rw [h1] at he
  exact tick_poll_empty_path_unloaded host seconds filter h he

theorem tick_texture_implies_decoded (host : Host) (seconds : float) (filter : uvfx_source)
    (h : TextureImpliesDecoded filter) :
    TextureImpliesDecoded (uvfx_source_tick host seconds filter) := by
  unfold uvfx_source_tick
  split
  · split
    · rename_i hd
      apply tick_loaded_texture_implies_decoded
      intro _
      unfold uvfx_source_load_texture
      split <;> exact hd
    · exact h
  · exact tick_loaded_texture_implies_decoded host seconds filter h

theorem tick_empty_path_unloaded (host : Host) (seconds : float) (filter : uvfx_source)
    (h : EmptyPathUnloaded filter) :
    EmptyPathUnloaded (uvfx_source_tick host seconds filter) := by
  unfold uvfx_source_tick
  split
  · split
    · rename_i hd
      apply tick_loaded_empty_path_unloaded
      intro he
      have hf : (uvfx_source_load_texture host filter).file = filter.file := by
        unfold uvfx_source_load_texture
        split <;> rfl
      rw [hf] at he
      rw [(h he).1] at hd
      exact absurd hd (by decide)
    · exact h
  · exact tick_loaded_empty_path_unloaded host seconds filter h

theorem update_texture_implies_decoded (host : Host) (filter : uvfx_source)
    (settings : Settings) (h : TextureImpliesDecoded filter) :
    TextureImpliesDecoded (uvfx_source_update host filter settings) := by
  unfold uvfx_source_update
  simp only []
  split
  · exact h
  · split
    · exact load_texture_implies_decoded host _
    · exact unload_texture_implies_decoded host _

/-- An update keeps the empty-path invariant unless it is a slide update that
sets an empty path on an instance with a flag set. -/
theorem update_empty_path_unloaded (host : Host) (filter : uvfx_source) (settings : Settings)
    (h : settings.is_slide = true → settings.file ≠ "" ∨
      (filter.file_decoded = false ∧ filter.texture_loaded = false)) :
    EmptyPathUnloaded (uvfx_source_update host filter settings) := by
  unfold uvfx_source_update
  simp only []
  split
  · rename_i hs
    intro he
    rcases h hs with hne | hflags
    · have := (file_nonempty_some settings.file).2 hne
      simp only [] at he
      rw [this] at he
      exact absurd he (by decide)
    · exact hflags
  · split
    · exact load_empty_path_unloaded host _
    · exact unload_empty_path_unloaded host _

theorem load_is_slide (host : Host) (filter : uvfx_source) :
    (uvfx_source_load host filter).is_slide = filter.is_slide := by
  unfold uvfx_source_load
  cases h : file_nonempty filter.file <;>
    simp [uvfx_source_unload, uvfx_source_preload_image, uvfx_source_load_texture, h]

theorem show_is_slide (host : Host) (filter : uvfx_source) :
    (uvfx_source_show host filter).is_slide = filter.is_slide := by
  unfold uvfx_source_show
  split
  · exact load_is_slide host filter
  · rfl

theorem hide_is_slide (host : Host) (filter : uvfx_source) :
    (uvfx_source_hide host filter).is_slide = filter.is_slide := by
  unfold uvfx_source_hide
  split <;> rfl

theorem tick_is_slide (host : Host) (seconds : float) (filter : uvfx_source) :
    (uvfx_source_tick host seconds filter).is_slide = filter.is_slide := by
  have poll : ∀ g : uvfx_source, (tick_loaded host seconds g).is_slide = g.is_slide := by
    intro g
    rw [(tick_loaded_same host seconds g).2.2.2.2.2]
    rcases tick_poll_cases host seconds g with ⟨acc, hp⟩ | hp
    · rw [hp]
    · rw [hp, load_is_slide]
  unfold uvfx_source_tick
  split
  · split
    · rw [poll]
      unfold uvfx_source_load_texture
      split <;> rfl
    · rfl
  · exact poll filter

/-- An update with `is_slide = false` establishes the empty-path invariant,
whatever the instance was; one with `is_slide = true` leaves a slide instance. -/
theorem update_not_slide (host : Host) (filter : uvfx_source) (settings : Settings)
    (h : (uvfx_source_update host filter settings).is_slide = false) :
    EmptyPathUnloaded (uvfx_source_update host filter settings) := by
  apply update_empty_path_unloaded
  intro hs
  exfalso
  have hslide : (uvfx_source_update host filter settings).is_slide = true := by
    unfold uvfx_source_update
    simp only [hs, if_true]
  rw [hslide] at h
  exact absurd h (by decide)

theorem show_texture_implies_decoded (host : Host) (filter : uvfx_source)
    (h : TextureImpliesDecoded filter) :
    TextureImpliesDecoded (uvfx_source_show host filter) := by
  unfold uvfx_source_show
  split
  · exact load_texture_implies_decoded host _
  · exact h

theorem hide_texture_implies_decoded (host : Host) (filter : uvfx_source)
    (h : TextureImpliesDecoded filter) :
    TextureImpliesDecoded (uvfx_source_hide host filter) := by
  unfold uvfx_source_hide
  split
  · exact unload_texture_implies_decoded host _
  · exact h

theorem show_empty_path_unloaded (host : Host) (filter : uvfx_source)
    (h : EmptyPathUnloaded filter) :
    EmptyPathUnloaded (uvfx_source_show host filter) := by
  unfold uvfx_source_show
  split
  · exact load_empty_path_unloaded host _
  · exact h

theorem hide_empty_path_unloaded (host : Host) (filter : uvfx_source)
    (h : EmptyPathUnloaded filter) :
    EmptyPathUnloaded (uvfx_source_hide host filter) := by
  unfold uvfx_source_hide
  split
  · exact unload_empty_path_unloaded host _
  · exact h

/-! ## Technique selection -/

/-- C8 (counterexample): with SDR white level 300, first argument SRGB and
second argument 709_SCRGB, the technique returned is "DrawMultiplyTonemap",
not "DrawMultiply", and the multiplier is the binary32 quotient
8947849/33554432, not the exact ratio 80/300. -/
theorem C8_counterexample :
    (0 : ℚ) < 300 ∧
    (get_tech_name_and_multiplier (float.finite 300) gs_color_space.GS_CS_SRGB
      gs_color_space.GS_CS_709_SCRGB).1 = "DrawMultiplyTonemap" ∧
    (get_tech_name_and_multiplier (float.finite 300) gs_color_space.GS_CS_SRGB
      gs_color_space.GS_CS_709_SCRGB).1 ≠ "DrawMultiply" ∧
    (get_tech_name_and_multiplier (float.finite 300) gs_color_space.GS_CS_SRGB
      gs_color_space.GS_CS_709_SCRGB).2 = float.finite (8947849 / 33554432) ∧
    (get_tech_name_and_multiplier (float.finite 300) gs_color_space.GS_CS_SRGB
      gs_color_space.GS_CS_709_SCRGB).2 ≠ float.finite (80 / 300) := by
  refine ⟨by norm_num, rfl, ?_, ?_, ?_⟩
  · show "DrawMultiplyTonemap" ≠ "DrawMultiply"
    decide
  · decide!
  · decide!

/-- C8 (amended): for every positive (finite) SDR white level `W`,
`get_tech_name_and_multiplier` with first argument (current space) SRGB and
second argument (source space) 709_SCRGB returns the technique
"DrawMultiplyTonemap" and, as multiplier, the binary32 quotient `80.0f / W`,
which is the exact ratio `80 / W` rounded to the nearest binary32 value. -/
theorem C8_srgb_target_scrgb_source (W : ℚ) (hW : 0 < W) :
    get_tech_name_and_multiplier (float.finite W) gs_color_space.GS_CS_SRGB
      gs_color_space.GS_CS_709_SCRGB
      = ("DrawMultiplyTonemap", float.div (float.finite 80) (float.finite W)) ∧
    float.div (float.finite 80) (float.finite W) = float.round (80 / W) := by
  refine ⟨rfl, ?_⟩
  have h : W ≠ 0 := ne_of_gt hW
  simp [float.div, float.value, h]

/-- C8 (witness): white level 300. -/
theorem C8_srgb_target_scrgb_source_witness :
    get_tech_name_and_multiplier (float.finite 300) gs_color_space.GS_CS_SRGB
      gs_color_space.GS_CS_709_SCRGB
      = ("DrawMultiplyTonemap", float.div (float.finite 80) (float.finite 300)) ∧
    float.div (float.finite 80) (float.finite 300) = float.round (80 / 300) :=
  C8_srgb_target_scrgb_source 300 (by norm_num)

/-- C9: for every colour space `X` and every SDR white level `W`,
`get_tech_name_and_multiplier(X, X, &m)` returns "Draw" and sets `m` to 1. -/
theorem C9_same_space_is_draw (W : float) (X : gs_color_space) :
    get_tech_name_and_multiplier W X X = ("Draw", float.finite 1) := by
  cases X <;> rfl

/-! ## Show and hide -/

/-- C5: when `persistent` or `is_slide` is set, `uvfx_source_show` and
`uvfx_source_hide` both return the instance unchanged, in every world. -/
theorem C5_show_hide_ignored (host : Host) (filter : uvfx_source)
    (h : filter.persistent = true ∨ filter.is_slide = true) :
    uvfx_source_show host filter = filter ∧ uvfx_source_hide host filter = filter := by
  unfold uvfx_source_show uvfx_source_hide
  rcases h with h | h <;> simp [h]

/-! ## Settings update -/

/-- C1 (counterexample): a persistent instance is updated to the path
`missing.png`, which does not exist and does not decode; `texture_loaded` is
true afterwards. -/
theorem C1_counterexample :
    let settings : Settings :=
      { file := "missing.png", unload := false, linear_alpha := false, is_slide := false }
    let after := uvfx_source_update sampleHost uvfx_source.zero settings
    settings.is_slide = false ∧ after.persistent = true ∧
    sampleHost.os_stat (some "missing.png") = none ∧ after.if4.loaded = false ∧
    after.texture_loaded = true := by
  decide

/-- C1 (amended): for every instance, world and settings with
`is_slide = false`, after `uvfx_source_update` the flag `texture_loaded` is true
if and only if the instance is persistent (`unload = false`) or showing, and the
file string of the settings is non-empty; `file_decoded` has the same value. -/
theorem C1_update_texture_loaded (host : Host) (filter : uvfx_source) (settings : Settings)
    (hslide : settings.is_slide = false) :
    ((uvfx_source_update host filter settings).texture_loaded = true ↔
      (settings.unload = false ∨ host.obs_source_showing = true) ∧ settings.file ≠ "") ∧
    (uvfx_source_update host filter settings).file_decoded =
      (uvfx_source_update host filter settings).texture_loaded := by
  unfold uvfx_source_update
  simp only [hslide]
  cases hu : settings.unload <;> cases hs : host.obs_source_showing <;>
    simp [load_flags, unload_flags, file_nonempty]

/-- C1 (witness): a showing, unloading instance updated to an existing file. -/
theorem C1_update_texture_loaded_witness :
    ((uvfx_source_update sampleHost uvfx_source.zero
        { file := "logo.png", unload := true, linear_alpha := false, is_slide := false }
      ).texture_loaded = true ↔
      ((true = false ∨ sampleHost.obs_source_showing = true) ∧ "logo.png" ≠ "")) ∧
    (uvfx_source_update sampleHost uvfx_source.zero
        { file := "logo.png", unload := true, linear_alpha := false, is_slide := false }
      ).file_decoded =
    (uvfx_source_update sampleHost uvfx_source.zero
        { file := "logo.png", unload := true, linear_alpha := false, is_slide := false }
      ).texture_loaded :=
  C1_update_texture_loaded sampleHost uvfx_source.zero
    { file := "logo.png", unload := true, linear_alpha := false, is_slide := false } rfl

/-! ## Failed loads -/

/-- C2 (counterexample): a non-persistent instance whose path `missing.png`
does not exist is loaded; the decoder reports failure (`loaded = false`), yet
the load ends with `file_decoded = true` and `texture_loaded = true`. -/
theorem C2_counterexample :
    let filter := uvfx_source_update hiddenHost uvfx_source.zero
      { file := "missing.png", unload := true, linear_alpha := false, is_slide := false }
    let after := uvfx_source_load sampleHost filter
    filter.file = some "missing.png" ∧ sampleHost.os_stat filter.file = none ∧
    after.if4.loaded = false ∧ after.file_decoded = true ∧ after.texture_loaded = true := by
  decide

/-- C2 (amended): for every instance with a non-empty path whose decode fails
(the library leaves `loaded = false` and a null texture, and creates no texture
for an image that is not loaded), `uvfx_source_load` ends with
`file_decoded = true` and `texture_loaded = true`, with `loaded = false`, a null
texture handle and `file_timestamp` equal to the freshly read timestamp; a
following render issues no call, in any world. -/
theorem C2_failed_load (host : Host) (filter : uvfx_source) (path : String)
    (hfile : filter.file = some path) (hpath : path ≠ "")
    (hfail : (host.gs_image_file4_init (host.gs_image_file4_free filter.if4) (some path)
      (alpha_mode filter.linear_alpha)).loaded = false)
    (hnull : (host.gs_image_file4_init (host.gs_image_file4_free filter.if4) (some path)
      (alpha_mode filter.linear_alpha)).texture = none)
    (hinit : ∀ image, image.loaded = false →
      (host.gs_image_file4_init_texture image).loaded = false ∧
      (host.gs_image_file4_init_texture image).texture = image.texture) :
    (uvfx_source_load host filter).file_decoded = true ∧
    (uvfx_source_load host filter).texture_loaded = true ∧
    (uvfx_source_load host filter).if4.loaded = false ∧
    (uvfx_source_load host filter).if4.texture = none ∧
    (uvfx_source_load host filter).file_timestamp = get_modified_timestamp host (some path) ∧
    ∀ later : Host, uvfx_source_render later (uvfx_source_load host filter) = [] := by
  have hne : file_nonempty filter.file = true := by
    rw [hfile]; exact (file_nonempty_some path).2 hpath
  have hl := load_nonempty host filter hne
  rw [hfile] at hl
  obtain ⟨h1, h2⟩ := hinit _ hfail
  rw [hnull] at h2
  rw [hl]
  refine ⟨rfl, rfl, h1, h2, rfl, ?_⟩
  intro later
  simp [uvfx_source_render, h2]

/-- C2 (witness): the path `missing.png` in the sample world. -/
theorem C2_failed_load_witness :
    let filter := uvfx_source_update hiddenHost uvfx_source.zero
      { file := "missing.png", unload := true, linear_alpha := false, is_slide := false }
    (uvfx_source_load sampleHost filter).file_decoded = true ∧
    (uvfx_source_load sampleHost filter).texture_loaded = true ∧
    (uvfx_source_load sampleHost filter).if4.loaded = false ∧
    (uvfx_source_load sampleHost filter).if4.texture = none ∧
    (uvfx_source_load sampleHost filter).file_timestamp =
      get_modified_timestamp sampleHost (some "missing.png") ∧
    ∀ later : Host, uvfx_source_render later (uvfx_source_load sampleHost filter) = [] :=
  C2_failed_load sampleHost _ "missing.png" rfl (by decide) (by decide) (by decide)
    (by
      intro image h
      simp [sampleHost, h])

/-! ## Render -/

/-- C10 (counterexample): rendering a loaded still image in the sample world
issues the draw, and the blend function set for it is (one,
one-minus-src-alpha); (src-alpha, one-minus-src-alpha) is never set. -/
theorem C10_counterexample :
    sampleLoaded.texture_loaded = true ∧ sampleLoaded.if4.texture = some 7 ∧
    sampleHost.obs_source_process_filter_begin = true ∧
    GsCall.obs_source_process_filter_tech_end 1920 1080 "Draw"
      ∈ uvfx_source_render sampleHost sampleLoaded ∧
    GsCall.gs_blend_function gs_blend_type.GS_BLEND_ONE gs_blend_type.GS_BLEND_INVSRCALPHA
      ∈ uvfx_source_render sampleHost sampleLoaded ∧
    GsCall.gs_blend_function gs_blend_type.GS_BLEND_SRCALPHA gs_blend_type.GS_BLEND_INVSRCALPHA
      ∉ uvfx_source_render sampleHost sampleLoaded := by
  refine ⟨by decide, by decide, rfl, ?_, ?_, ?_⟩ <;>
    simp [uvfx_source_render, sampleLoaded, sampleHost, uvfx_source_update, load_nonempty,
      file_nonempty, sampleStill, get_tech_name_and_multiplier, uvfx_source.zero]

/-- C10 (amended): whenever `uvfx_source_render` issues a draw
(`texture_loaded` is true, the texture handle is non-null and the host's
filter-begin succeeds), the calls are, in order: filter-begin, set multiplier,
bind the texture to `uv_texture`, push the blend state, set the blend function
with source factor one and destination factor one-minus-src-alpha, draw with
the selected technique, pop the blend state; no other blend function is set. -/
theorem C10_render_blend (host : Host) (filter : uvfx_source) (uv_texture : Nat)
    (hloaded : filter.texture_loaded = true) (htex : filter.if4.texture = some uv_texture)
    (hbegin : host.obs_source_process_filter_begin = true) :
    uvfx_source_render host filter =
      [GsCall.obs_source_process_filter_begin_with_color_space
         (host.gs_get_format_from_space host.obs_source_get_color_space)
         host.obs_source_get_color_space,
       GsCall.gs_effect_set_float (get_tech_name_and_multiplier
         host.obs_get_video_sdr_white_level host.gs_get_color_space
         host.obs_source_get_color_space).2,
       GsCall.gs_effect_set_texture "uv_texture" uv_texture,
       GsCall.gs_blend_state_push,
       GsCall.gs_blend_function gs_blend_type.GS_BLEND_ONE gs_blend_type.GS_BLEND_INVSRCALPHA,
       GsCall.obs_source_process_filter_tech_end host.obs_source_get_base_width
         host.obs_source_get_base_height (get_tech_name_and_multiplier
         host.obs_get_video_sdr_white_level host.gs_get_color_space
         host.obs_source_get_color_space).1,
       GsCall.gs_blend_state_pop] ∧
    ∀ src dest, GsCall.gs_blend_function src dest ∈ uvfx_source_render host filter →
      src = gs_blend_type.GS_BLEND_ONE ∧ dest = gs_blend_type.GS_BLEND_INVSRCALPHA := by
  constructor
  · simp only [uvfx_source_render, hloaded, htex, hbegin]
    rfl
  · intro src dest hmem
    simp only [uvfx_source_render, hloaded, htex, hbegin] at hmem
    simpa using hmem

/-- C10 (witness): the loaded still image of the sample world. -/
theorem C10_render_blend_witness :
    uvfx_source_render sampleHost sampleLoaded =
      [GsCall.obs_source_process_filter_begin_with_color_space
         (sampleHost.gs_get_format_from_space sampleHost.obs_source_get_color_space)
         sampleHost.obs_source_get_color_space,
       GsCall.gs_effect_set_float (get_tech_name_and_multiplier
         sampleHost.obs_get_video_sdr_white_level sampleHost.gs_get_color_space
         sampleHost.obs_source_get_color_space).2,
       GsCall.gs_effect_set_texture "uv_texture" 7,
       GsCall.gs_blend_state_push,
       GsCall.gs_blend_function gs_blend_type.GS_BLEND_ONE gs_blend_type.GS_BLEND_INVSRCALPHA,
       GsCall.obs_source_process_filter_tech_end sampleHost.obs_source_get_base_width
         sampleHost.obs_source_get_base_height (get_tech_name_and_multiplier
         sampleHost.obs_get_video_sdr_white_level sampleHost.gs_get_color_space
         sampleHost.obs_source_get_color_space).1,
       GsCall.gs_blend_state_pop] ∧
    ∀ src dest, GsCall.gs_blend_function src dest ∈ uvfx_source_render sampleHost sampleLoaded →
      src = gs_blend_type.GS_BLEND_ONE ∧ dest = gs_blend_type.GS_BLEND_INVSRCALPHA :=
  C10_render_blend sampleHost sampleLoaded 7 (by decide) (by decide) rfl

/-! ## Invariants of reachable states -/

/-- C3: in every state reachable from a freshly created instance by update,
show, hide, activate, tick and render callbacks (any settings, any world at each
callback), `texture_loaded = true` implies `file_decoded = true`. -/
theorem C3_texture_loaded_implies_file_decoded (filter : uvfx_source)
    (hreach : ReachableBy (fun _ => True) filter) :
    filter.texture_loaded = true → filter.file_decoded = true := by
  induction hreach with
  | create host settings =>
    exact update_texture_implies_decoded host _ settings (fun h => absurd h (by decide))
  | step host op filter _ _ ih =>
    match op with
    | Op.update settings => exact update_texture_implies_decoded host filter settings ih
    | Op.show => exact show_texture_implies_decoded host filter ih
    | Op.hide => exact hide_texture_implies_decoded host filter ih
    | Op.activate => exact ih
    | Op.tick seconds => exact tick_texture_implies_decoded host seconds filter ih
    | Op.render => exact ih

/-- C3 (witness): create with `logo.png`, hide with unloading off, tick. -/
theorem C3_texture_loaded_implies_file_decoded_witness :
    (Op.run sampleHost (Op.run hiddenHost sampleLoaded Op.hide)
      (Op.tick (float.finite 1))).file_decoded = true :=
  C3_texture_loaded_implies_file_decoded _
    (ReachableBy.step sampleHost (Op.tick (float.finite 1)) _
      (ReachableBy.step hiddenHost Op.hide _
        (ReachableBy.create sampleHost
          { file := "logo.png", unload := false, linear_alpha := false, is_slide := false })
        trivial)
      trivial)
    (by decide!)

/-- C4 (counterexample): create with `logo.png` (persistent, not a slide), then
update with `is_slide = true` and an empty file string.  The stored path is the
empty string and both flags are still true. -/
theorem C4_counterexample :
    let bad := Op.run sampleHost sampleLoaded
      (Op.update { file := "", unload := false, linear_alpha := false, is_slide := true })
    ReachableBy (fun op => op.isRender = false) bad ∧
    bad.file = some "" ∧ bad.file_decoded = true ∧ bad.texture_loaded = true :=
  ⟨ReachableBy.step sampleHost _ _
      (ReachableBy.create sampleHost
        { file := "logo.png", unload := false, linear_alpha := false, is_slide := false })
      rfl,
    by decide, by decide, by decide⟩

/-- C4 (amended): in every state reachable from a freshly created instance by
update (any settings, `is_slide = true` included), show, hide, activate and
tick callbacks, if the stored path is the empty string then `file_decoded` and
`texture_loaded` are both false, provided that the instance is not in slide
mode (`is_slide = false`); and the same holds in slide mode too when no update
with `is_slide = true` and an empty file string was applied to an instance
that had `file_decoded` or `texture_loaded` set. -/
theorem C4_empty_path_implies_unloaded (filter : uvfx_source)
    (hreach :
      (ReachableBy (fun op => op.isRender = false) filter ∧ filter.is_slide = false) ∨
      ReachableWhen (fun before op => op.isRender = false ∧
        (op.isSlideUpdateToEmptyPath = true →
          before.file_decoded = false ∧ before.texture_loaded = false)) filter)
    (hpath : filter.file = some "") :
    filter.file_decoded = false ∧ filter.texture_loaded = false := by
  have inv : EmptyPathUnloaded filter := by
    clear hpath
    rcases hreach with ⟨hreach, hmode⟩ | hreach
    · have general : filter.is_slide = false → EmptyPathUnloaded filter := by
        clear hmode
        induction hreach with
        | create host settings => exact update_not_slide host _ settings
        | step host op filter _ _ ih =>
          match op with
          | Op.update settings => exact update_not_slide host filter settings
          | Op.show =>
            intro hs
            exact show_empty_path_unloaded host filter (ih (by
              rw [← show_is_slide host filter]; exact hs))
          | Op.hide =>
            intro hs
            exact hide_empty_path_unloaded host filter (ih (by
              rw [← hide_is_slide host filter]; exact hs))
          | Op.activate => exact ih
          | Op.tick seconds =>
            intro hs
            exact tick_empty_path_unloaded host seconds filter (ih (by
              rw [← tick_is_slide host seconds filter]; exact hs))
          | Op.render => exact ih
      exact general hmode
    · induction hreach with
      | create host settings =>
        exact update_empty_path_unloaded host _ settings (fun _ => Or.inr ⟨rfl, rfl⟩)
      | step host op filter _ hop ih =>
        match op, hop with
        | Op.update settings, hop =>
          apply update_empty_path_unloaded
          intro hs
          by_cases hempty : settings.file = ""
          · have bad : (Op.update settings).isSlideUpdateToEmptyPath = true := by
              simp [Op.isSlideUpdateToEmptyPath, hs, hempty]
            exact Or.inr (hop.2 bad)
          · exact Or.inl hempty
        | Op.show, _ => exact show_empty_path_unloaded host filter ih
        | Op.hide, _ => exact hide_empty_path_unloaded host filter ih
        | Op.activate, _ => exact ih
        | Op.tick seconds, _ => exact tick_empty_path_unloaded host seconds filter ih
        | Op.render, _ => exact ih
  apply inv
  rw [hpath]
  rfl

/-- C4 (witness): two runs that both pass through a loaded state.  The first
creates with `logo.png`, ticks, makes the slide update to the empty string that
leaves both flags set, then an ordinary update to the empty string.  The second
creates with `logo.png`, unloads by an update while hidden, makes a slide
update to the empty string and ticks. -/
theorem C4_empty_path_implies_unloaded_witness :
    let first := Op.run sampleHost
      (Op.run sampleHost (Op.run sampleHost sampleLoaded (Op.tick (float.finite 1)))
        (Op.update { file := "", unload := false, linear_alpha := false, is_slide := true }))
      (Op.update { file := "", unload := false, linear_alpha := false, is_slide := false })
    let second := Op.run sampleHost
      (Op.run sampleHost
        (Op.run hiddenHost sampleLoaded
          (Op.update
            { file := "spin.gif", unload := true, linear_alpha := false, is_slide := false }))
        (Op.update { file := "", unload := true, linear_alpha := false, is_slide := true }))
      (Op.tick (float.finite 1))
    sampleLoaded.texture_loaded = true ∧
    (first.file_decoded = false ∧ first.texture_loaded = false) ∧
    (second.file_decoded = false ∧ second.texture_loaded = false) :=
  ⟨by decide,
    C4_empty_path_implies_unloaded _
      (Or.inl
        ⟨ReachableBy.step sampleHost _ _
          (ReachableBy.step sampleHost _ _
            (ReachableBy.step sampleHost (Op.tick (float.finite 1)) _
              (ReachableBy.create sampleHost
                { file := "logo.png", unload := false, linear_alpha := false,
                  is_slide := false })
              rfl)
            rfl)
          rfl,
        rfl⟩)
      rfl,
    C4_empty_path_implies_unloaded _
      (Or.inr
        (ReachableWhen.step sampleHost (Op.tick (float.finite 1)) _
          (ReachableWhen.step sampleHost _ _
            (ReachableWhen.step hiddenHost _ _
              (ReachableWhen.create sampleHost
                { file := "logo.png", unload := false, linear_alpha := false,
                  is_slide := false })
              ⟨rfl, fun h => absurd h (by decide)⟩)
            ⟨rfl, fun _ => by decide⟩)
          ⟨rfl, fun h => absurd h (by decide)⟩))
      (by decide!)⟩

/-- C5 (witness): the persistent loaded still image, and a slide instance. -/
theorem C5_show_hide_ignored_witness :
    (uvfx_source_show sampleHost sampleLoaded = sampleLoaded ∧
      uvfx_source_hide hiddenHost sampleLoaded = sampleLoaded) ∧
    (uvfx_source_show sampleHost sampleSlideCleared = sampleSlideCleared ∧
      uvfx_source_hide sampleHost sampleSlideCleared = sampleSlideCleared) :=
  ⟨⟨(C5_show_hide_ignored sampleHost sampleLoaded (Or.inl (by decide))).1,
     (C5_show_hide_ignored hiddenHost sampleLoaded (Or.inl (by decide))).2⟩,
   C5_show_hide_ignored sampleHost sampleSlideCleared (Or.inr (by decide))⟩

/-! ## File-change polling -/

/-- C6 (counterexample): the instance is showing with `texture_loaded = true`
and an empty path (created with `logo.png`, then a slide update to the empty
string).  A tick of one second brings the accumulator to 1.0f, finds the
timestamp `-1` different from the stored one, and only unloads: nothing is
decoded and `file_timestamp` keeps its old value. -/
theorem C6_counterexample :
    ReachableBy (fun _ => True) sampleSlideCleared ∧
    sampleSlideCleared.texture_loaded = true ∧ sampleHost.obs_source_showing = true ∧
    float.ge (float.add sampleSlideCleared.update_time_elapsed (float.finite 1))
      (float.finite 1) = true ∧
    get_modified_timestamp sampleHost sampleSlideCleared.file = -1 ∧
    sampleSlideCleared.file_timestamp = 1700000000 ∧
    (uvfx_source_tick sampleHost (float.finite 1) sampleSlideCleared).file_decoded = false ∧
    (uvfx_source_tick sampleHost (float.finite 1) sampleSlideCleared).texture_loaded = false ∧
    (uvfx_source_tick sampleHost (float.finite 1) sampleSlideCleared).file_timestamp
      = 1700000000 := by
  refine ⟨?_, by decide!⟩
  exact ReachableBy.step sampleHost
    (Op.update { file := "", unload := false, linear_alpha := false, is_slide := true }) _
    (ReachableBy.create sampleHost
      { file := "logo.png", unload := false, linear_alpha := false, is_slide := false })
    trivial

/-- C6 (amended): for every instance with `texture_loaded = true`, a non-empty
path and a showing source: if a tick with delta `seconds` brings the binary32
sum `update_time_elapsed + seconds` of line 344 to at least `1.0f` and the
timestamp read from the path differs from the stored `file_timestamp`, then
that tick reloads: the previous image is freed, the path is decoded afresh and
its texture created, `file_timestamp` is the newly read timestamp, both flags
are true and the poll accumulator is 0; the visibility and animation steps of
the tick then run on that reloaded state. -/
theorem C6_poll_reloads (host : Host) (seconds : float) (filter : uvfx_source) (path : String)
    (hloaded : filter.texture_loaded = true) (hshow : host.obs_source_showing = true)
    (hfile : filter.file = some path) (hpath : path ≠ "")
    (hdue : float.ge (float.add filter.update_time_elapsed seconds) (float.finite 1) = true)
    (hchanged : get_modified_timestamp host (some path) ≠ filter.file_timestamp) :
    let reloaded : uvfx_source :=
      { filter with
        file_decoded := true
        texture_loaded := true
        update_time_elapsed := float.finite 0
        file_timestamp := get_modified_timestamp host (some path)
        if4 := host.gs_image_file4_init_texture
          (host.gs_image_file4_init (host.gs_image_file4_free filter.if4) (some path)
            (alpha_mode filter.linear_alpha)) }
    let frame_time := host.obs_get_video_frame_time % 2 ^ 64
    let after := uvfx_source_tick host seconds filter
    after = tick_animate host frame_time (tick_showing host frame_time reloaded) ∧
    after.file_decoded = true ∧ after.texture_loaded = true ∧
    after.file_timestamp = get_modified_timestamp host (some path) ∧
    after.update_time_elapsed = float.finite 0 := by
  intro reloaded frame_time after
  have hpoll : tick_poll host seconds filter = reloaded := by
    have hne : file_nonempty
        ({ filter with update_time_elapsed := float.finite 0 } : uvfx_source).file = true := by
      show file_nonempty filter.file = true
      rw [hfile]; exact (file_nonempty_some path).2 hpath
    have hl := load_nonempty host { filter with update_time_elapsed := float.finite 0 } hne
    unfold tick_poll
    simp only [hshow, hdue, if_true, hfile, ne_eq, hchanged.symm, not_false_eq_true]
    rw [← hfile, hl]
    simp only [reloaded, hfile]
  have hafter : after = tick_animate host frame_time (tick_showing host frame_time reloaded) := by
    show uvfx_source_tick host seconds filter = _
    unfold uvfx_source_tick tick_loaded
    simp only [hloaded, hshow, hpoll, Bool.not_true, Bool.false_eq_true, if_false, if_true]
  have hsame : SameLoadState after reloaded := by
    rw [hafter]
    exact (tick_animate_same host _ _).trans (tick_showing_same host _ _)
  obtain ⟨_, h2, h3, h4, h5, _⟩ := hsame
  exact ⟨hafter, h2, h3, h4, h5⟩

/-- C6 (witness): the loaded still image with 16777215/16777216 s accumulated,
ticked by 3/67108864 s after the file has been rewritten.  The exact sum is
below 1; the binary32 sum is `1.0f` and the tick reloads. -/
theorem C6_poll_reloads_witness :
    let filter : uvfx_source :=
      { sampleLoaded with update_time_elapsed := float.finite (16777215 / 16777216) }
    let seconds := float.finite (3 / 67108864)
    let reloaded : uvfx_source :=
      { filter with
        file_decoded := true
        texture_loaded := true
        update_time_elapsed := float.finite 0
        file_timestamp := get_modified_timestamp touchedHost (some "logo.png")
        if4 := touchedHost.gs_image_file4_init_texture
          (touchedHost.gs_image_file4_init (touchedHost.gs_image_file4_free filter.if4)
            (some "logo.png") (alpha_mode filter.linear_alpha)) }
    let frame_time := touchedHost.obs_get_video_frame_time % 2 ^ 64
    let after := uvfx_source_tick touchedHost seconds filter
    after = tick_animate touchedHost frame_time (tick_showing touchedHost frame_time reloaded) ∧
    after.file_decoded = true ∧ after.texture_loaded = true ∧
    after.file_timestamp = get_modified_timestamp touchedHost (some "logo.png") ∧
    after.update_time_elapsed = float.finite 0 :=
  C6_poll_reloads touchedHost (float.finite (3 / 67108864))
    { sampleLoaded with update_time_elapsed := float.finite (16777215 / 16777216) }
    "logo.png" (by decide) rfl (by decide) (by decide) (by decide!) (by decide)

/-! ## Restart on activation -/

/-- C7 (counterexample): a freshly created instance whose texture is loaded,
whose source is showing and whose stored image is an animated GIF; the file has
since been overwritten by a still image.  After activate, a tick of one second
reloads the file, the restart finds no animation, and `restart_gif` is still
true when the tick returns. -/
theorem C7_counterexample :
    ReachableBy (fun _ => True) sampleGifLoaded ∧
    sampleGifLoaded.texture_loaded = true ∧ replacedHost.obs_source_showing = true ∧
    sampleGifLoaded.if4.is_animated_gif = true ∧
    (uvfx_source_tick replacedHost (float.finite 1)
      (uvfx_source_activate sampleGifLoaded)).restart_gif = true := by
  refine ⟨?_, by decide!⟩
  exact ReachableBy.create sampleHost
    { file := "spin.gif", unload := false, linear_alpha := false, is_slide := false }

/-- C7 (amended): for every instance whose texture is loaded and whose source
is showing, every prior `cur_frame`, `cur_loop` and `cur_time`, and a library
whose texture refresh leaves these three counters alone: if the image in place
after the file poll of the tick (the stored image, or the freshly decoded one
when the poll reloads) is an animated GIF, then after activate the next tick
hands to its animation-advance step a state with `cur_frame`, `cur_loop` and
`cur_time` equal to 0, refreshed from the zeroed counters, with
`restart_gif = false`; `restart_gif` is false when the tick returns. -/
theorem C7_activate_then_tick_restarts (host : Host) (seconds : float) (filter : uvfx_source)
    (hloaded : filter.texture_loaded = true) (hshow : host.obs_source_showing = true)
    (hgif : (tick_poll host seconds (uvfx_source_activate filter)).if4.is_animated_gif = true)
    (hrefresh : ∀ image : gs_image_file4,
      (host.gs_image_file4_update_texture image).cur_frame = image.cur_frame ∧
      (host.gs_image_file4_update_texture image).cur_loop = image.cur_loop ∧
      (host.gs_image_file4_update_texture image).cur_time = image.cur_time) :
    let frame_time := host.obs_get_video_frame_time % 2 ^ 64
    let polled := tick_poll host seconds (uvfx_source_activate filter)
    let handed := tick_showing host frame_time polled
    let after := uvfx_source_tick host seconds (uvfx_source_activate filter)
    after = tick_animate host frame_time handed ∧
    handed.if4 = host.gs_image_file4_update_texture
      { polled.if4 with cur_frame := 0, cur_loop := 0, cur_time := 0 } ∧
    handed.if4.cur_frame = 0 ∧ handed.if4.cur_loop = 0 ∧ handed.if4.cur_time = 0 ∧
    handed.restart_gif = false ∧ after.restart_gif = false := by
  intro frame_time polled handed after
  have hafter : after = tick_animate host frame_time handed := by
    show uvfx_source_tick host seconds (uvfx_source_activate filter) = _
    have hl : (uvfx_source_activate filter).texture_loaded = true := hloaded
    unfold uvfx_source_tick tick_loaded
    simp only [hl, hshow, Bool.not_true, Bool.false_eq_true, if_false, if_true]
  have hpending : polled.restart_gif = true := by
    show (tick_poll host seconds (uvfx_source_activate filter)).restart_gif = true
    rw [tick_poll_restart_gif]
    rfl
  have henter_gif : (tick_enter frame_time polled).if4 = polled.if4 :=
    (tick_enter_if4 frame_time polled).1
  have henter_pending : (tick_enter frame_time polled).restart_gif = true :=
    (tick_enter_if4 frame_time polled).2.trans hpending
  have hhanded : handed = restart_gif host (tick_enter frame_time polled) := by
    show tick_showing host frame_time polled = _
    unfold tick_showing
    simp only [henter_pending, if_true]
  have hanim : (tick_enter frame_time polled).if4.is_animated_gif = true := by
    rw [henter_gif]; exact hgif
  have hif4 : handed.if4 = host.gs_image_file4_update_texture
      { polled.if4 with cur_frame := 0, cur_loop := 0, cur_time := 0 } := by
    rw [hhanded, (restart_gif_animated host _ hanim).1, henter_gif]
  have hflag : handed.restart_gif = false := by
    rw [hhanded]
    exact (restart_gif_animated host _ hanim).2
  obtain ⟨c1, c2, c3⟩ := hrefresh { polled.if4 with cur_frame := 0, cur_loop := 0, cur_time := 0 }
  refine ⟨hafter, hif4, ?_, ?_, ?_, hflag, ?_⟩
  · rw [hif4, c1]
  · rw [hif4, c2]
  · rw [hif4, c3]
  · rw [hafter, tick_animate_restart_gif]
    exact hflag

/-- C7 (witness): the animated GIF of the sample world, activated in
mid-playback and ticked one sixtieth of a second later. -/
theorem C7_activate_then_tick_restarts_witness :
    let seconds := float.round (1 / 60)
    let frame_time := sampleHost.obs_get_video_frame_time % 2 ^ 64
    let polled := tick_poll sampleHost seconds (uvfx_source_activate sampleGifPlaying)
    let handed := tick_showing sampleHost frame_time polled
    let after := uvfx_source_tick sampleHost seconds (uvfx_source_activate sampleGifPlaying)
    after = tick_animate sampleHost frame_time handed ∧
    handed.if4 = sampleHost.gs_image_file4_update_texture
      { polled.if4 with cur_frame := 0, cur_loop := 0, cur_time := 0 } ∧
    handed.if4.cur_frame = 0 ∧ handed.if4.cur_loop = 0 ∧ handed.if4.cur_time = 0 ∧
    handed.restart_gif = false ∧ after.restart_gif = false :=
  C7_activate_then_tick_restarts sampleHost (float.round (1 / 60)) sampleGifPlaying
    (by decide) rfl (by decide!) (fun _ => ⟨rfl, rfl, rfl⟩)

end UVFX
